import Mathlib

/-!
Verification of the transaction-scope propagation engine of `sql-helper`
(`sql_helper/transaction/*`, `sql_helper/database/database.py`).

The Python source is shallowly embedded: sessions are opaque `Nat` labels,
exceptions are values of an explicit class taxonomy, the session stack is the
insertion-ordered dictionary from `session.py`, and the synchronous
orchestrator (`handler.py`), retry loop (`decorator.py`) and timeout guard
(`timeout.py`) are modelled as pure functions that also return the trace of
provider events (commit / rollback / close / push / pop / user-call) they
perform.
-/

/-- Exception classes relevant to the transaction engine.  `userExc n` stands
for an application-defined exception class; distinct tags model distinct
Python classes none of which is a subclass of another (every tag is a
subclass of `Exception`, which is modelled by `ExcSpec.anyExc` below). -/
inductive ExcClass
  | valueError
  | typeError
  | timeoutError
  | keyError
  | runtimeError
  | sqlAlchemyError
  | databaseError
  | userExc (n : Nat)
deriving DecidableEq, Repr

/-- A raised Python exception: its class, message, and `raise ... from e`
cause, if any. -/
structure Exc where
  cls : ExcClass
  msg : String := ""
  cause : Option ExcClass := none
deriving DecidableEq, Repr

/-- One entry of a `rollback_for` tuple: either the base class `Exception`
(which catches everything) or a specific leaf class. -/
inductive ExcSpec
  | anyExc
  | cls (c : ExcClass)
deriving DecidableEq, Repr

/-- `isinstance` test of an exception class against one `rollback_for` entry. -/
def ExcSpec.catches : ExcSpec → ExcClass → Bool
  | .anyExc, _ => true
  | .cls c, c' => c = c'

/-- `except options.rollback_for` matching: the exception class is caught when
some entry of the tuple catches it. -/
def catchesAny (specs : List ExcSpec) (c : ExcClass) : Bool :=
  specs.any (fun s => s.catches c)

/-- `PropagationType` from `transaction/types.py`. -/
inductive PropagationType
  | REQUIRED
  | REQUIRES_NEW
  | NESTED
  | SUPPORTS
  | NOT_SUPPORTED
  | NEVER
  | MANDATORY
deriving DecidableEq, Repr

/-- Session id produced by `SessionStack._get_next_session_id`:
the Python f-string `f"session_(counter)"`. -/
def mkSessionId (c : Nat) : String :=
  "session_" ++ toString c

/-- The ordered dictionary `SessionStack.sessions` together with the id
counter (`session.py`). -/
structure SessionStack where
  sessions : List (String × Nat)
  counter : Nat
deriving DecidableEq, Repr

/-- A freshly initialized `SessionStack` (`__init__`). -/
def SessionStack.emptyStack : SessionStack :=
  ⟨[], 0⟩

/-- Python dict assignment `d[k] = v`: overwrite in place when the key is
present, otherwise append in insertion order. -/
def dictInsert (d : List (String × Nat)) (k : String) (v : Nat) :
    List (String × Nat) :=
  if d.any (fun p => p.1 == k) then
    d.map (fun p => if p.1 == k then (k, v) else p)
  else
    d ++ [(k, v)]

/-- Python `d.pop(k, None)`: the removed value (if any) and the remaining
dictionary. -/
def dictPop (d : List (String × Nat)) (k : String) :
    Option Nat × List (String × Nat) :=
  match d.find? (fun p => p.1 == k) with
  | some p => (some p.2, d.filter (fun q => !(q.1 == k)))
  | none => (none, d)

/-- `SessionStack._get_next_session_id`. -/
def SessionStack.get_next_session_id (st : SessionStack) :
    String × SessionStack :=
  (mkSessionId st.counter, { st with counter := st.counter + 1 })

/-- `SessionStack.push`. -/
def SessionStack.push (st : SessionStack) (s : Nat) : String × SessionStack :=
  let (id, st') := st.get_next_session_id
  (id, { st' with sessions := dictInsert st'.sessions id s })

/-- `SessionStack.pop`. -/
def SessionStack.pop (st : SessionStack) (id : String) :
    Option Nat × SessionStack :=
  let (v, d) := dictPop st.sessions id
  (v, { st with sessions := d })

/-- `SessionStack.get_current`: the most recently inserted value, if any. -/
def SessionStack.get_current (st : SessionStack) : Option Nat :=
  (st.sessions.getLast?).map (fun p => p.2)

/-- `SessionStack.clear`: empties the dictionary and resets the counter. -/
def SessionStack.clear (st : SessionStack) : SessionStack :=
  { st with sessions := [], counter := 0 }

/-- Observable actions of one synchronous transaction invocation. -/
inductive Event
  | push (id : String)
  | pop (id : String)
  | commit (s : Nat)
  | rollback (s : Nat)
  | close (s : Nat)
  | userCall (s : Option Nat)
  | configure
deriving DecidableEq, Repr

/-- Result of running a synchronous body: outcome, stack state after, and the
event trace. -/
structure SyncRun where
  result : Except Exc Unit
  stack : SessionStack
  events : List Event
deriving Repr

/-- `TransactionHandler._handle_session_sync`: push the session under a fresh
id, run the body, and pop that id in a `finally` block (so the pop happens on
every exit path). -/
def handle_session_sync (st : SessionStack) (session : Nat)
    (body : SessionStack → SyncRun) : SyncRun :=
  let (id, st1) := st.push session
  let r := body st1
  let (_, st2) := r.stack.pop id
  ⟨r.result, st2, Event.push id :: r.events ++ [Event.pop id]⟩

/-- `Database.get_db` (`database/database.py`): run the body with a new
session; on success `commit()` then `close()`; on any exception roll back,
raise `DatabaseError(details=...)` with the original exception as cause, and
still `close()` in the `finally` block. -/
def get_db (fresh : Nat) (body : Nat → SessionStack → SyncRun)
    (st : SessionStack) : SyncRun :=
  let r := body fresh st
  match r.result with
  | .ok _ =>
      ⟨.ok (), r.stack, r.events ++ [Event.commit fresh, Event.close fresh]⟩
  | .error e =>
      ⟨.error ⟨.databaseError, "Database error occurred", some e.cls⟩,
        r.stack, r.events ++ [Event.rollback fresh, Event.close fresh]⟩

/-- The body that runs the decorated user function with the ambient session. -/
def userBody (user : Option Nat → Except Exc Unit) (s : Option Nat)
    (st : SessionStack) : SyncRun :=
  ⟨user s, st, [Event.userCall s]⟩

/-- `TransactionHandler._handle_required_sync`: reuse the existing session if
present, otherwise open a new one via `get_db`, configure it, and run the user
function inside a push/pop frame. -/
def handle_required_sync (user : Option Nat → Except Exc Unit) (fresh : Nat)
    (existing : Option Nat) (st : SessionStack) : SyncRun :=
  match existing with
  | some s => handle_session_sync st s (userBody user (some s))
  | none =>
      get_db fresh
        (fun sess st' =>
          let r := handle_session_sync st' sess (userBody user (some sess))
          ⟨r.result, r.stack, Event.configure :: r.events⟩)
        st

/-- `TransactionHandler._handle_requires_new_sync`: always open a new session;
the existing one is not consulted and stays on the stack. -/
def handle_requires_new_sync (user : Option Nat → Except Exc Unit)
    (fresh : Nat) (st : SessionStack) : SyncRun :=
  get_db fresh
    (fun sess st' =>
      let r := handle_session_sync st' sess (userBody user (some sess))
      ⟨r.result, r.stack, Event.configure :: r.events⟩)
    st

/-- `TransactionHandler._handle_supports_sync`: reuse if present, otherwise
run the user function with no session. -/
def handle_supports_sync (user : Option Nat → Except Exc Unit)
    (existing : Option Nat) (st : SessionStack) : SyncRun :=
  match existing with
  | some s => handle_session_sync st s (userBody user (some s))
  | none =>
      let r := userBody user none st
      r

/-- `TransactionHandler._handle_mandatory_sync`: raise
`ValueError(TransactionError.MANDATORY_REQUIRED)` when no session exists,
otherwise reuse. -/
def handle_mandatory_sync (user : Option Nat → Except Exc Unit)
    (existing : Option Nat) (st : SessionStack) : SyncRun :=
  match existing with
  | some s => handle_session_sync st s (userBody user (some s))
  | none =>
      ⟨.error ⟨.valueError, "No existing transaction (MANDATORY propagation)",
        none⟩, st, []⟩

/-- A value of the sync propagation-handler dictionary
(`_get_propagation_handler`).  Every handler except `_handle_never` is a
generator function decorated with `@contextmanager`; `_handle_never` is a
bare (undecorated) generator function, which is *not* a context manager. -/
inductive SyncHandler
  | ctxmgr (run : Option Nat → SessionStack → SyncRun)
  | bareGenerator

/-- `TransactionHandler._get_propagation_handler` (sync branch): the five
wired propagation types; `NESTED` and `NOT_SUPPORTED` have no dictionary
entry. -/
def get_propagation_handler_sync (user : Option Nat → Except Exc Unit)
    (fresh : Nat) : PropagationType → Option SyncHandler
  | .REQUIRED => some (.ctxmgr (handle_required_sync user fresh))
  | .REQUIRES_NEW =>
      some (.ctxmgr (fun _ st => handle_requires_new_sync user fresh st))
  | .SUPPORTS => some (.ctxmgr (handle_supports_sync user))
  | .NEVER => some .bareGenerator
  | .MANDATORY => some (.ctxmgr (handle_mandatory_sync user))
  | .NESTED => none
  | .NOT_SUPPORTED => none

/-- `TransactionHandler.handle_sync` with no timeout configured: read the
current session, look the handler up in the propagation dictionary, and enter
it with `with handler(existing, ops) as session`.  Entering `_handle_never`
fails with `TypeError` because a bare generator does not support the context
manager protocol; a missing dictionary entry fails with `KeyError`. -/
def handle_sync (user : Option Nat → Except Exc Unit) (fresh : Nat)
    (prop : PropagationType) (st : SessionStack) : SyncRun :=
  let existing := st.get_current
  match get_propagation_handler_sync user fresh prop with
  | some (.ctxmgr run) => run existing st
  | some .bareGenerator =>
      ⟨.error ⟨.typeError,
        "generator object does not support the context manager protocol",
        none⟩, st, []⟩
  | none => ⟨.error ⟨.keyError, "", none⟩, st, []⟩

/-- Actions of the spec's §4.1 decision table. -/
inductive SpecAction
  | REUSE (s : Nat)
  | CREATE_NEW
  | PROCEED_WITHOUT_SCOPE
  | REJECT (reason : String)
deriving DecidableEq, Repr

/-- Modelled from the spec: the pure decision table of §4.1
(`decide(existing, mode)`), transcribed from the spec's words for comparison
with the behaviour of the embedded code. -/
def decide_spec (existing : Option Nat) (mode : PropagationType) :
    Option SpecAction :=
  match mode, existing with
  | .REQUIRED, some s => some (.REUSE s)
  | .REQUIRED, none => some .CREATE_NEW
  | .REQUIRES_NEW, _ => some .CREATE_NEW
  | .SUPPORTS, some s => some (.REUSE s)
  | .SUPPORTS, none => some .PROCEED_WITHOUT_SCOPE
  | .NEVER, some _ =>
      some (.REJECT "scope exists but NEVER propagation forbids it")
  | .NEVER, none => some .PROCEED_WITHOUT_SCOPE
  | .MANDATORY, some s => some (.REUSE s)
  | .MANDATORY, none =>
      some (.REJECT "no scope exists but MANDATORY propagation requires one")
  | _, _ => none

/-- Number of `userCall` events in a trace. -/
def countUserCalls (l : List Event) : Nat :=
  (l.filter (fun e => match e with | .userCall _ => true | _ => false)).length

/-- Number of `commit s` events in a trace. -/
def countCommitOf (s : Nat) : List Event → Nat
  | [] => 0
  | .commit s' :: rest => (if s' = s then 1 else 0) + countCommitOf s rest
  | _ :: rest => countCommitOf s rest

/-- Number of `rollback s` events in a trace. -/
def countRollbackOf (s : Nat) : List Event → Nat
  | [] => 0
  | .rollback s' :: rest => (if s' = s then 1 else 0) + countRollbackOf s rest
  | _ :: rest => countRollbackOf s rest

/-- Number of `close s` events in a trace. -/
def countCloseOf (s : Nat) : List Event → Nat
  | [] => 0
  | .close s' :: rest => (if s' = s then 1 else 0) + countCloseOf s rest
  | _ :: rest => countCloseOf s rest

/-- Number of `push id` events in a trace. -/
def countPushOf (id : String) : List Event → Nat
  | [] => 0
  | .push id' :: rest => (if id' = id then 1 else 0) + countPushOf id rest
  | _ :: rest => countPushOf id rest

/-- Number of `pop id` events in a trace. -/
def countPopOf (id : String) : List Event → Nat
  | [] => 0
  | .pop id' :: rest => (if id' = id then 1 else 0) + countPopOf id rest
  | _ :: rest => countPopOf id rest

/-- True when the trace contains no commit and no rollback event at all. -/
def noTerminationEvents (l : List Event) : Bool :=
  l.all (fun e => match e with
    | .commit _ => false
    | .rollback _ => false
    | _ => true)

/-- `handle_error` from `transaction/decorator.py`: with retries remaining it
only logs and returns; with none remaining it raises
`DatabaseError("Database error after all retries")` when the failure is a
`SQLAlchemyError`, and re-raises the failure unchanged otherwise. -/
def handle_error (e : Exc) (retryRemaining : Nat) : Option Exc :=
  if retryRemaining > 0 then
    none
  else if e.cls = .sqlAlchemyError then
    some ⟨.databaseError, "Database error after all retries", some e.cls⟩
  else
    some e

/-- The exception surfaced by `handle_error` at exhaustion
(`retry_remaining <= 0`). -/
def exhaustWrap (e : Exc) : Exc :=
  if e.cls = .sqlAlchemyError then
    ⟨.databaseError, "Database error after all retries", some e.cls⟩
  else
    e

/-- `retry_sync` from `transaction/decorator.py`, recursing on the remaining
retry budget: attempt the operation (the attempt index selects its outcome);
an exception matched by `rollback_for` with no budget left is surfaced through
`handle_error`, otherwise the loop sleeps `retry_backoff` (a flat delay) and
retries; an unmatched exception propagates at once.  The function returns the
result, the number of invocations of the operation, and the list of delays
slept. -/
def retrySyncGo {α : Type} (func : Nat → Except Exc α)
    (rollbackFor : List ExcSpec) (backoff : ℚ) :
    Nat → Nat → Except Exc α × Nat × List ℚ
  | 0, attempt =>
      match func attempt with
      | .ok a => (.ok a, 1, [])
      | .error e =>
          if catchesAny rollbackFor e.cls then
            (.error (exhaustWrap e), 1, [])
          else
            (.error e, 1, [])
  | rem + 1, attempt =>
      match func attempt with
      | .ok a => (.ok a, 1, [])
      | .error e =>
          if catchesAny rollbackFor e.cls then
            let r := retrySyncGo func rollbackFor backoff rem (attempt + 1)
            (r.1, r.2.1 + 1, backoff :: r.2.2)
          else
            (.error e, 1, [])

/-- `retry_sync(func, options)`: start with `retry_remaining = retry_count`
and attempt index 0. -/
def retry_sync {α : Type} (func : Nat → Except Exc α)
    (rollbackFor : List ExcSpec) (backoff : ℚ) (retryCount : Nat) :
    Except Exc α × Nat × List ℚ :=
  retrySyncGo func rollbackFor backoff retryCount 0

/-- Result of the full decorated pipeline (`sync_wrapper`): outcome, final
stack, concatenated event trace, delays slept, and the number of times the
`execute` closure ran. -/
structure TxRun where
  result : Except Exc Unit
  stack : SessionStack
  events : List Event
  delays : List ℚ
  attempts : Nat
deriving Repr

/-- The decorated call (`sync_wrapper` of `transactional`): each attempt runs
`handle_sync_transaction` around the user function; a failure matched by
`rollback_for` is retried after a flat `retry_backoff` sleep while budget
remains and is surfaced through `handle_error` at exhaustion.  `freshAt`
supplies the brand-new session a retried attempt would open; the stack state
threads through attempts. -/
def transactional_sync (prop : PropagationType)
    (userAt : Nat → Option Nat → Except Exc Unit) (freshAt : Nat → Nat)
    (rollbackFor : List ExcSpec) (backoff : ℚ) :
    Nat → Nat → SessionStack → TxRun
  | 0, attempt, st =>
      let r := handle_sync (userAt attempt) (freshAt attempt) prop st
      match r.result with
      | .ok _ => ⟨.ok (), r.stack, r.events, [], 1⟩
      | .error e =>
          if catchesAny rollbackFor e.cls then
            ⟨.error (exhaustWrap e), r.stack, r.events, [], 1⟩
          else
            ⟨.error e, r.stack, r.events, [], 1⟩
  | rem + 1, attempt, st =>
      let r := handle_sync (userAt attempt) (freshAt attempt) prop st
      match r.result with
      | .ok _ => ⟨.ok (), r.stack, r.events, [], 1⟩
      | .error e =>
          if catchesAny rollbackFor e.cls then
            let rest := transactional_sync prop userAt freshAt rollbackFor
              backoff rem (attempt + 1) r.stack
            ⟨rest.result, rest.stack, r.events ++ rest.events,
              backoff :: rest.delays, rest.attempts + 1⟩
          else
            ⟨.error e, r.stack, r.events, [], 1⟩

/-- `sync_timeout` from `transaction/timeout.py`: `if not seconds` the body is
run unguarded; otherwise `signal.alarm(int(seconds))` arms an alarm after the
*integer truncation* of the configured duration, and `alarm(0)` — the value
produced by any sub-second timeout — arms nothing at all.  The result is the
number of seconds after which SIGALRM fires, or `none` when no alarm is
armed. -/
def sync_timeout_alarm (seconds : Option ℚ) : Option Nat :=
  match seconds with
  | none => none
  | some s =>
      if s = 0 then none
      else
        let n := (⌊s⌋).toNat
        if n = 0 then none else some n

/-- Running an operation of the given duration under `sync_timeout`: the
alarm interrupts the operation with `TimeoutError("Transaction timeout")`
only if it is armed and fires before the operation finishes. -/
def runWithSyncTimeout (seconds : Option ℚ) (opDuration : ℚ)
    (opResult : Except Exc Unit) : Except Exc Unit :=
  match sync_timeout_alarm seconds with
  | none => opResult
  | some n =>
      if (n : ℚ) ≤ opDuration then
        .error ⟨.timeoutError, "Transaction timeout", none⟩
      else
        opResult

/-- The process state relevant to `SessionStack.__new__`: the heap of stack
objects ever allocated (indexed by allocation order) and the class variable
`_instance`. -/
structure PyWorld where
  heap : List SessionStack
  singletonInst : Option Nat
deriving Repr

/-- A fresh process: no stack allocated, `_instance is None`. -/
def PyWorld.emptyWorld : PyWorld :=
  ⟨[], none⟩

/-- `SessionStack.__new__` with the `__init__` guard: if `_instance` is set it
is returned untouched (re-running `__init__` is a no-op because
`_initialized` is true), otherwise a new object is allocated, initialized and
memoized in `_instance`. -/
def sessionStackNew (w : PyWorld) : Nat × PyWorld :=
  match w.singletonInst with
  | some i => (i, w)
  | none =>
      let i := w.heap.length
      (i, ⟨w.heap ++ [SessionStack.emptyStack], some i⟩)

/-- `TransactionHandler.__init__` stack acquisition: take the stack from the
call chain's `current_session_stack` context variable; when the context holds
none, construct `SessionStack()` and store it in the context variable.
Returns the stack object used, the new context value, and the new process
state. -/
def handlerInitStack (ctx : Option Nat) (w : PyWorld) :
    Nat × Option Nat × PyWorld :=
  match ctx with
  | some i => (i, some i, w)
  | none =>
      let (i, w') := sessionStackNew w
      (i, some i, w')

/-- Mutate stack object `i` on the heap with `f`. -/
def PyWorld.updateStack (w : PyWorld) (i : Nat)
    (f : SessionStack → SessionStack) : PyWorld :=
  { w with heap := w.heap.mapIdx (fun j stj => if j = i then f stj else stj) }

/-- `push` on heap stack `i`: the returned id and the new process state. -/
def PyWorld.pushOn (w : PyWorld) (i : Nat) (s : Nat) : String × PyWorld :=
  let st := w.heap.getD i SessionStack.emptyStack
  let (id, st') := st.push s
  (id, w.updateStack i (fun _ => st'))

/-- `get_current` on heap stack `i`. -/
def PyWorld.currentOn (w : PyWorld) (i : Nat) : Option Nat :=
  (w.heap.getD i SessionStack.emptyStack).get_current

/-- A key of the `TransactionManager._databases` dictionary.  The decorator's
`db` argument is `Union[str, Database]`; a `Database` object used as a key
compares only by identity (`Database` defines no `__eq__`), never equal to
any string. -/
inductive DbKey
  | name (s : String)
  | ref (objId : Nat)
deriving DecidableEq, Repr

/-- `TransactionManager.get_database`: dictionary lookup by the given key;
`KeyError("... not registered")` when absent. -/
def get_database (dbs : List (DbKey × Nat)) (k : DbKey) : Except Exc Nat :=
  match dbs.find? (fun p => p.1 == k) with
  | some p => .ok p.2
  | none => .error ⟨.keyError, "not registered", none⟩

/-- The database resolution performed by both wrappers of `transactional`:
always `transaction_manager.get_database(db)`, regardless of whether `db` is
a name or a `Database` instance. -/
def transactional_resolve (dbs : List (DbKey × Nat)) (dbArg : DbKey) :
    Except Exc Nat :=
  get_database dbs dbArg

/-- A user function that always succeeds. -/
def userOkFn : Option Nat → Except Exc Unit :=
  fun _ => .ok ()

/-- The `TypeError` produced by entering a bare generator with `with`. -/
def bareGeneratorTypeError : Exc :=
  ⟨.typeError,
    "generator object does not support the context manager protocol", none⟩

/-- C1: the §4.1 decision-table claim fails for NEVER: `_handle_never` is the
only handler not decorated with `@contextmanager`, so `handle_sync`'s
`with handler(...)` raises `TypeError` for both NEVER cells — the user
function never runs — while the table prescribes PROCEED_WITHOUT_SCOPE
(absent) and REJECT (present).  The code's own docstrings prescribe the
table's behaviour, so this is a defect of the code. -/
theorem c1_never_handler_breaks_decision_table :
    (handle_sync userOkFn 100 .NEVER SessionStack.emptyStack).result =
      .error bareGeneratorTypeError ∧
    countUserCalls
      (handle_sync userOkFn 100 .NEVER SessionStack.emptyStack).events = 0 ∧
    (handle_sync userOkFn 100 .NEVER ⟨[("session_0", 5)], 1⟩).result =
      .error bareGeneratorTypeError ∧
    decide_spec none .NEVER = some SpecAction.PROCEED_WITHOUT_SCOPE ∧
    decide_spec (some 5) .NEVER =
      some (SpecAction.REJECT
        "scope exists but NEVER propagation forbids it") := by
  exact ⟨rfl, rfl, rfl, rfl, rfl⟩

/-- When no alarm is armed, the operation runs unguarded. -/
theorem runWithSyncTimeout_of_alarm_none (s : Option ℚ) (d : ℚ)
    (r : Except Exc Unit) (h : sync_timeout_alarm s = none) :
    runWithSyncTimeout s d r = r := by
  unfold runWithSyncTimeout
  rw [h]

/-- C6: the timeout claim fails on the code: with `timeout = 0.05` the sync
guard arms `signal.alarm(int(0.05)) = signal.alarm(0)`, which arms no alarm at
all, so an operation sleeping 1 s completes successfully instead of failing
with a timeout. -/
theorem c6_subsecond_timeout_never_fires :
    sync_timeout_alarm (some (1 / 20)) = none ∧
    runWithSyncTimeout (some (1 / 20)) 1 (.ok ()) = .ok () ∧
    (0 : ℚ) < 1 / 20 ∧ (1 / 20 : ℚ) < 1 := by
  have hfl : ⌊(1 : ℚ) / 20⌋ = 0 := by
    rw [Int.floor_eq_zero_iff, Set.mem_Ico]
    constructor <;> norm_num
  have halarm : sync_timeout_alarm (some ((1 : ℚ) / 20)) = none := by
    show (if (1 : ℚ) / 20 = 0 then none
        else
          let n := (⌊(1 : ℚ) / 20⌋).toNat
          if n = 0 then none else some n) = none
    rw [if_neg (by norm_num : ¬((1 : ℚ) / 20 = 0))]
    show (if (⌊(1 : ℚ) / 20⌋).toNat = 0 then none
        else some (⌊(1 : ℚ) / 20⌋).toNat) = none
    rw [hfl]
    rfl
  exact ⟨halarm, runWithSyncTimeout_of_alarm_none _ _ _ halarm,
    by norm_num, by norm_num⟩

/-- C7 counterexample: `SessionStack` is a process-wide singleton, so two
independent top-level call chains (each starting with an empty
`current_session_stack` context) obtain the *same* stack object, and the
second chain's `get_current()` returns the scope pushed by the first chain —
refuting the claim that a chain's `current()` never returns a scope pushed by
another chain. -/
theorem c7_counterexample_chains_share_singleton_stack :
    (handlerInitStack none
        ((PyWorld.emptyWorld.pushOn
          (handlerInitStack none PyWorld.emptyWorld).1 7).2)).1 =
      (handlerInitStack none PyWorld.emptyWorld).1 ∧
    PyWorld.currentOn
      (handlerInitStack none
        (((handlerInitStack none PyWorld.emptyWorld).2.2.pushOn
          (handlerInitStack none PyWorld.emptyWorld).1 7).2)).2.2
      (handlerInitStack none
        (((handlerInitStack none PyWorld.emptyWorld).2.2.pushOn
          (handlerInitStack none PyWorld.emptyWorld).1 7).2)).1 =
      some 7 := by
  exact ⟨rfl, rfl⟩

/-- C8 counterexample: `clear()` resets the id counter to 0, so a push before
a `clear` and a push after it return the same id `"session_0"` on the same
stack instance — refuting the claim that no two pushes on one instance ever
return the same id. -/
theorem c8_counterexample_clear_reuses_ids :
    (SessionStack.emptyStack.push 7).1 =
      (((SessionStack.emptyStack.push 7).2.clear).push 8).1 ∧
    (SessionStack.emptyStack.push 7).1 = "session_0" := by
  exact ⟨rfl, rfl⟩

/-- C3 counterexample: a MANDATORY REJECT (`ValueError`) *is* retried by the
retry loop under the default `rollback_for = (Exception,)` with
`retry_count = 1`: the execute closure runs twice (instead of the single
attempt the claim requires), the user function still never runs, and the
final error is the propagation `ValueError` re-raised unchanged. -/
theorem c3_counterexample_reject_is_retried :
    (transactional_sync .MANDATORY (fun _ _ => .ok ()) (fun k => 100 + k)
        [ExcSpec.anyExc] 1 1 0 SessionStack.emptyStack).attempts = 2 ∧
    countUserCalls
      (transactional_sync .MANDATORY (fun _ _ => .ok ()) (fun k => 100 + k)
        [ExcSpec.anyExc] 1 1 0 SessionStack.emptyStack).events = 0 ∧
    (transactional_sync .MANDATORY (fun _ _ => .ok ()) (fun k => 100 + k)
        [ExcSpec.anyExc] 1 1 0 SessionStack.emptyStack).result =
      .error ⟨.valueError, "No existing transaction (MANDATORY propagation)",
        none⟩ := by
  exact ⟨rfl, rfl, rfl⟩

/-- At exhaustion (`retry_remaining <= 0`) `handle_error` raises exactly the
`exhaustWrap` of the failure. -/
theorem handle_error_at_exhaustion (e : Exc) :
    handle_error e 0 = some (exhaustWrap e) := by
  unfold handle_error exhaustWrap
  by_cases h : e.cls = .sqlAlchemyError <;> simp [h]

/-- Bounds of the retry loop: the operation runs at most `rem + 1` times, one
flat delay is slept before each retry (so invocations = delays + 1), and every
delay equals `retry_backoff`. -/
theorem retrySyncGo_bounds {α : Type} (func : Nat → Except Exc α)
    (rf : List ExcSpec) (b : ℚ) :
    ∀ (rem attempt : Nat),
      (retrySyncGo func rf b rem attempt).2.1 ≤ rem + 1 ∧
      (retrySyncGo func rf b rem attempt).2.1 =
        (retrySyncGo func rf b rem attempt).2.2.length + 1 ∧
      (∀ d ∈ (retrySyncGo func rf b rem attempt).2.2, d = b) := by
  intro rem
  induction rem with
  | zero =>
      intro attempt
      unfold retrySyncGo
      cases h : func attempt with
      | ok a => simp
      | error e =>
          by_cases hc : catchesAny rf e.cls <;> simp [hc]
  | succ r ih =>
      intro attempt
      unfold retrySyncGo
      cases h : func attempt with
      | ok a => simp
      | error e =>
          by_cases hc : catchesAny rf e.cls
          · obtain ⟨ih1, ih2, ih3⟩ := ih (attempt + 1)
            simp only [hc, if_true]
            refine ⟨by omega, by simp [ih2], ?_⟩
            intro d hd
            rcases List.mem_cons.mp hd with h1 | h2
            · exact h1
            · exact ih3 d h2
          · simp [hc]

/-- A failure whose class is not matched by `rollback_for` propagates at once:
one invocation, no delay, the error unchanged. -/
theorem retry_sync_unmatched {α : Type} (func : Nat → Except Exc α)
    (rf : List ExcSpec) (b : ℚ) (n : Nat) (e : Exc)
    (h : func 0 = .error e) (hc : catchesAny rf e.cls = false) :
    retry_sync func rf b n = (.error e, 1, []) := by
  unfold retry_sync
  cases n <;> · unfold retrySyncGo; simp [h, hc]

/-- An always-failing retryable operation surfaces `exhaustWrap` of its
failure once the budget is gone. -/
theorem retrySyncGo_exhaust {α : Type} (e : Exc) (rf : List ExcSpec) (b : ℚ)
    (hc : catchesAny rf e.cls = true) :
    ∀ (rem attempt : Nat),
      (retrySyncGo (fun _ => (.error e : Except Exc α)) rf b rem attempt).1 =
        .error (exhaustWrap e) := by
  intro rem
  induction rem with
  | zero => intro attempt; unfold retrySyncGo; simp [hc]
  | succ r ih =>
      intro attempt
      unfold retrySyncGo
      simp only [hc, if_true]
      exact ih (attempt + 1)

/-- The concrete retry scenario of the spec: fails on the first two attempts
with a provider (`SQLAlchemyError`) failure, then succeeds. -/
def failTwiceFn : Nat → Except Exc Nat :=
  fun k => if k < 2 then .error ⟨.sqlAlchemyError, "boom", none⟩ else .ok 0

/-- C4: a failure is retried only when its class is in `rollback_for` and
attempts remain, with a flat `retry_backoff` delay before each retry; the
operation runs at most `retry_count + 1` times; and with `retry_count = 2`
and an operation failing twice (retryably) then succeeding, the call succeeds
with exactly 3 invocations. -/
theorem c4_retry_count_and_flat_backoff {α : Type} (func : Nat → Except Exc α)
    (rf : List ExcSpec) (b : ℚ) (n : Nat) :
    (retry_sync func rf b n).2.1 ≤ n + 1 ∧
    (retry_sync func rf b n).2.1 = (retry_sync func rf b n).2.2.length + 1 ∧
    (∀ d ∈ (retry_sync func rf b n).2.2, d = b) ∧
    (∀ e : Exc, func 0 = .error e → catchesAny rf e.cls = false →
      retry_sync func rf b n = (.error e, 1, [])) ∧
    retry_sync failTwiceFn [ExcSpec.anyExc] b 2 = (.ok 0, 3, [b, b]) := by
  obtain ⟨h1, h2, h3⟩ := retrySyncGo_bounds func rf b n 0
  exact ⟨h1, h2, h3, fun e he hc => retry_sync_unmatched func rf b n e he hc,
    rfl⟩

/-- Witness for C4 at concrete inputs. -/
theorem c4_retry_count_and_flat_backoff_witness :
    (retry_sync failTwiceFn [ExcSpec.anyExc] (1 : ℚ) 2).2.1 ≤ 3 ∧
    retry_sync failTwiceFn [ExcSpec.anyExc] (1 : ℚ) 2 = (.ok 0, 3, [1, 1]) ∧
    retry_sync (fun _ => (.error ⟨.userExc 0, "u", none⟩ : Except Exc Unit))
      [ExcSpec.cls .sqlAlchemyError] (1 : ℚ) 2 =
      (.error ⟨.userExc 0, "u", none⟩, 1, []) :=
  ⟨(c4_retry_count_and_flat_backoff failTwiceFn [ExcSpec.anyExc] 1 2).1,
    (c4_retry_count_and_flat_backoff failTwiceFn
      [ExcSpec.anyExc] 1 2).2.2.2.2,
    (c4_retry_count_and_flat_backoff
        (fun _ => (.error ⟨.userExc 0, "u", none⟩ : Except Exc Unit))
        [ExcSpec.cls .sqlAlchemyError] 1 2).2.2.2.1
      ⟨.userExc 0, "u", none⟩ rfl rfl⟩

/-- C5: when a retryable failure is still failing after the retry budget is
exhausted, the surfaced error is a terminal `DatabaseError` exactly when the
failure is an instance of the provider's failure class (`SQLAlchemyError`);
any other final failure is re-raised unchanged. -/
theorem c5_exhausted_failure_wrapping (rf : List ExcSpec) (e : Exc) (b : ℚ)
    (n : Nat) (hc : catchesAny rf e.cls = true) :
    (e.cls = .sqlAlchemyError →
      (retry_sync (fun _ => (.error e : Except Exc Unit)) rf b n).1 =
        .error ⟨.databaseError, "Database error after all retries",
          some e.cls⟩) ∧
    (e.cls ≠ .sqlAlchemyError →
      (retry_sync (fun _ => (.error e : Except Exc Unit)) rf b n).1 =
        .error e) := by
  have h := retrySyncGo_exhaust (α := Unit) e rf b hc n 0
  unfold retry_sync
  rw [h]
  unfold exhaustWrap
  constructor
  · intro hsql; simp [hsql]
  · intro hns; simp [hns]

/-- Witness for C5 at concrete inputs: a provider failure is wrapped, a user
failure is re-raised unchanged. -/
theorem c5_exhausted_failure_wrapping_witness :
    (retry_sync (fun _ =>
        (.error ⟨.sqlAlchemyError, "db down", none⟩ : Except Exc Unit))
      [ExcSpec.anyExc] 1 2).1 =
      .error ⟨.databaseError, "Database error after all retries",
        some .sqlAlchemyError⟩ ∧
    (retry_sync (fun _ =>
        (.error ⟨.userExc 3, "oops", none⟩ : Except Exc Unit))
      [ExcSpec.anyExc] 1 2).1 = .error ⟨.userExc 3, "oops", none⟩ :=
  ⟨(c5_exhausted_failure_wrapping [ExcSpec.anyExc]
      ⟨.sqlAlchemyError, "db down", none⟩ 1 2 rfl).1 rfl,
    (c5_exhausted_failure_wrapping [ExcSpec.anyExc]
      ⟨.userExc 3, "oops", none⟩ 1 2 rfl).2 (by simp)⟩

/-- Inserting a key absent from the dictionary appends it. -/
theorem dictInsert_of_fresh (d : List (String × Nat)) (k : String) (v : Nat)
    (h : ∀ p ∈ d, p.1 ≠ k) :
    dictInsert d k v = d ++ [(k, v)] := by
  unfold dictInsert
  rw [if_neg]
  intro hx
  obtain ⟨p, hp, hpk⟩ := List.any_eq_true.mp hx
  exact h p hp (by simpa using hpk)

/-- Popping the key just appended returns its value and restores the
dictionary. -/
theorem dictPop_append_fresh (d : List (String × Nat)) (k : String) (v : Nat)
    (h : ∀ p ∈ d, p.1 ≠ k) :
    dictPop (d ++ [(k, v)]) k = (some v, d) := by
  unfold dictPop
  have hfind : (d ++ [(k, v)]).find? (fun p => p.1 == k) = some (k, v) := by
    induction d with
    | nil => simp
    | cons a t ih =>
        have ha : (a.1 == k) = false := by
          simpa using h a (List.mem_cons_self a t)
        rw [List.cons_append, List.find?_cons]
        simp only [ha]
        exact ih (fun p hp => h p (List.mem_cons_of_mem a hp))
  rw [hfind]
  have hfilter : (d ++ [(k, v)]).filter (fun q => !(q.1 == k)) = d := by
    rw [List.filter_append]
    have h1 : d.filter (fun q => !(q.1 == k)) = d :=
      List.filter_eq_self.mpr (fun p hp => by simpa using h p hp)
    have h2 : ([(k, v)] : List (String × Nat)).filter
        (fun q => !(q.1 == k)) = [] := by simp
    rw [h1, h2, List.append_nil]
  rw [hfilter]

/-- Running the user body inside a push/pop frame on a stack whose next id is
not already a key: the frame pushes under `mkSessionId counter`, runs the
user function once, pops the same id, and restores the dictionary. -/
theorem handle_session_sync_userBody (d : List (String × Nat)) (c : Nat)
    (sess : Nat) (user : Option Nat → Except Exc Unit) (s : Option Nat)
    (h : ∀ p ∈ d, p.1 ≠ mkSessionId c) :
    handle_session_sync ⟨d, c⟩ sess (userBody user s) =
      ⟨user s, ⟨d, c + 1⟩,
        [Event.push (mkSessionId c), Event.userCall s,
          Event.pop (mkSessionId c)]⟩ := by
  unfold handle_session_sync SessionStack.push SessionStack.get_next_session_id
    userBody SessionStack.pop
  simp only [dictInsert_of_fresh d (mkSessionId c) sess h,
    dictPop_append_fresh d (mkSessionId c) sess h]
  rfl

/-- `get_current` of a stack ending in `(kid, s)` is `some s`. -/
theorem get_current_concat (d : List (String × Nat)) (kid : String)
    (s c : Nat) :
    SessionStack.get_current ⟨d ++ [(kid, s)], c⟩ = some s := by
  unfold SessionStack.get_current
  simp

/-- `get_current` of an empty stack is `none`. -/
theorem get_current_nil (c : Nat) :
    SessionStack.get_current ⟨[], c⟩ = none := rfl

/-- Evaluation of a REQUIRED invocation with no existing scope: a new session
is opened, configured, pushed, the user function runs once, the frame is
popped, and the session is committed (success) or rolled back with the error
wrapped as `DatabaseError` (failure), then closed. -/
theorem handle_sync_required_create (f : Option Nat → Except Exc Unit)
    (fresh c : Nat) :
    handle_sync f fresh .REQUIRED ⟨[], c⟩ =
      match f (some fresh) with
      | .ok _ =>
          ⟨.ok (), ⟨[], c + 1⟩,
            [Event.configure, Event.push (mkSessionId c),
              Event.userCall (some fresh), Event.pop (mkSessionId c),
              Event.commit fresh, Event.close fresh]⟩
      | .error e =>
          ⟨.error ⟨.databaseError, "Database error occurred", some e.cls⟩,
            ⟨[], c + 1⟩,
            [Event.configure, Event.push (mkSessionId c),
              Event.userCall (some fresh), Event.pop (mkSessionId c),
              Event.rollback fresh, Event.close fresh]⟩ := by
  have hb := handle_session_sync_userBody [] c fresh f (some fresh) (by simp)
  cases hf : f (some fresh) with
  | ok a =>
      simp only [handle_sync, get_propagation_handler_sync, get_current_nil,
        handle_required_sync, get_db, hb, hf]
      rfl
  | error e =>
      simp only [handle_sync, get_propagation_handler_sync, get_current_nil,
        handle_required_sync, get_db, hb, hf]
      rfl

/-- Evaluation of a REQUIRES_NEW invocation: a new session is opened no
matter what is on the stack, the existing entries are left untouched, and the
new session is committed or rolled back and closed as in the REQUIRED create
path. -/
theorem handle_sync_requires_new (f : Option Nat → Except Exc Unit)
    (fresh c : Nat) (d : List (String × Nat))
    (hd : ∀ p ∈ d, p.1 ≠ mkSessionId c) :
    handle_sync f fresh .REQUIRES_NEW ⟨d, c⟩ =
      match f (some fresh) with
      | .ok _ =>
          ⟨.ok (), ⟨d, c + 1⟩,
            [Event.configure, Event.push (mkSessionId c),
              Event.userCall (some fresh), Event.pop (mkSessionId c),
              Event.commit fresh, Event.close fresh]⟩
      | .error e =>
          ⟨.error ⟨.databaseError, "Database error occurred", some e.cls⟩,
            ⟨d, c + 1⟩,
            [Event.configure, Event.push (mkSessionId c),
              Event.userCall (some fresh), Event.pop (mkSessionId c),
              Event.rollback fresh, Event.close fresh]⟩ := by
  have hb := handle_session_sync_userBody d c fresh f (some fresh) hd
  cases hf : f (some fresh) with
  | ok a =>
      simp only [handle_sync, get_propagation_handler_sync,
        handle_requires_new_sync, get_db, hb, hf]
      rfl
  | error e =>
      simp only [handle_sync, get_propagation_handler_sync,
        handle_requires_new_sync, get_db, hb, hf]
      rfl

/-- Evaluation of a reusing invocation (REQUIRED, SUPPORTS or MANDATORY with
an existing scope): the existing session is pushed under a fresh id, the user
function runs once with it, the frame is popped, the dictionary is restored —
and no commit, rollback or close is ever issued. -/
theorem handle_sync_reuse (f : Option Nat → Except Exc Unit)
    (fresh s c : Nat) (kid : String) (d : List (String × Nat))
    (prop : PropagationType)
    (hprop : prop = .REQUIRED ∨ prop = .SUPPORTS ∨ prop = .MANDATORY)
    (hd : ∀ p ∈ d ++ [(kid, s)], p.1 ≠ mkSessionId c) :
    handle_sync f fresh prop ⟨d ++ [(kid, s)], c⟩ =
      ⟨f (some s), ⟨d ++ [(kid, s)], c + 1⟩,
        [Event.push (mkSessionId c), Event.userCall (some s),
          Event.pop (mkSessionId c)]⟩ := by
  have hb := handle_session_sync_userBody (d ++ [(kid, s)]) c s f (some s) hd
  rcases hprop with h | h | h <;> subst h <;>
    simp only [handle_sync, get_propagation_handler_sync,
      get_current_concat, handle_required_sync, handle_supports_sync,
      handle_mandatory_sync, hb]

/-- C2: a CREATE_NEW invocation (REQUIRED with no scope, or REQUIRES_NEW)
commits the new scope exactly once and closes it exactly once when the user
function succeeds, and rolls it back exactly once and closes it exactly once
when the user function raises; a reusing invocation (REQUIRED / SUPPORTS /
MANDATORY with an existing scope) never issues a commit or rollback; and in
every case the stack entry pushed for the invocation is popped again, leaving
the dictionary as it was. -/
theorem c2_scope_lifecycle (u : Except Exc Unit) (s fresh c : Nat)
    (kid : String) (d : List (String × Nat))
    (hd : ∀ p ∈ d, p.1 ≠ mkSessionId c) (hk : kid ≠ mkSessionId c) :
    (u = .ok () →
      countCommitOf fresh
        (handle_sync (fun _ => u) fresh .REQUIRED ⟨[], c⟩).events = 1 ∧
      countRollbackOf fresh
        (handle_sync (fun _ => u) fresh .REQUIRED ⟨[], c⟩).events = 0 ∧
      countCloseOf fresh
        (handle_sync (fun _ => u) fresh .REQUIRED ⟨[], c⟩).events = 1 ∧
      (handle_sync (fun _ => u) fresh .REQUIRED ⟨[], c⟩).stack.sessions
        = []) ∧
    ((∃ e, u = .error e) →
      countCommitOf fresh
        (handle_sync (fun _ => u) fresh .REQUIRED ⟨[], c⟩).events = 0 ∧
      countRollbackOf fresh
        (handle_sync (fun _ => u) fresh .REQUIRED ⟨[], c⟩).events = 1 ∧
      countCloseOf fresh
        (handle_sync (fun _ => u) fresh .REQUIRED ⟨[], c⟩).events = 1 ∧
      (handle_sync (fun _ => u) fresh .REQUIRED ⟨[], c⟩).stack.sessions
        = []) ∧
    (u = .ok () →
      countCommitOf fresh
        (handle_sync (fun _ => u) fresh .REQUIRES_NEW ⟨d, c⟩).events = 1 ∧
      countRollbackOf fresh
        (handle_sync (fun _ => u) fresh .REQUIRES_NEW ⟨d, c⟩).events = 0 ∧
      countCloseOf fresh
        (handle_sync (fun _ => u) fresh .REQUIRES_NEW ⟨d, c⟩).events = 1 ∧
      (handle_sync (fun _ => u) fresh .REQUIRES_NEW ⟨d, c⟩).stack.sessions
        = d) ∧
    ((∃ e, u = .error e) →
      countCommitOf fresh
        (handle_sync (fun _ => u) fresh .REQUIRES_NEW ⟨d, c⟩).events = 0 ∧
      countRollbackOf fresh
        (handle_sync (fun _ => u) fresh .REQUIRES_NEW ⟨d, c⟩).events = 1 ∧
      countCloseOf fresh
        (handle_sync (fun _ => u) fresh .REQUIRES_NEW ⟨d, c⟩).events = 1 ∧
      (handle_sync (fun _ => u) fresh .REQUIRES_NEW ⟨d, c⟩).stack.sessions
        = d) ∧
    (∀ prop : PropagationType,
      prop = .REQUIRED ∨ prop = .SUPPORTS ∨ prop = .MANDATORY →
      noTerminationEvents
        (handle_sync (fun _ => u) fresh prop ⟨d ++ [(kid, s)], c⟩).events
        = true ∧
      countPushOf (mkSessionId c)
        (handle_sync (fun _ => u) fresh prop ⟨d ++ [(kid, s)], c⟩).events
        = 1 ∧
      countPopOf (mkSessionId c)
        (handle_sync (fun _ => u) fresh prop ⟨d ++ [(kid, s)], c⟩).events
        = 1 ∧
      (handle_sync (fun _ => u) fresh prop
        ⟨d ++ [(kid, s)], c⟩).stack.sessions = d ++ [(kid, s)]) := by
  have hall : ∀ p ∈ d ++ [(kid, s)], p.1 ≠ mkSessionId c := by
    intro p hp
    rcases List.mem_append.mp hp with h1 | h2
    · exact hd p h1
    · rcases List.mem_singleton.mp h2 with rfl
      simpa using hk
  refine ⟨?_, ?_, ?_, ?_, ?_⟩
  · intro hu
    subst hu
    rw [handle_sync_required_create (fun _ => .ok ()) fresh c]
    simp [countCommitOf, countRollbackOf, countCloseOf]
  · rintro ⟨e, hu⟩
    subst hu
    rw [handle_sync_required_create (fun _ => .error e) fresh c]
    simp [countCommitOf, countRollbackOf, countCloseOf]
  · intro hu
    subst hu
    rw [handle_sync_requires_new (fun _ => .ok ()) fresh c d hd]
    simp [countCommitOf, countRollbackOf, countCloseOf]
  · rintro ⟨e, hu⟩
    subst hu
    rw [handle_sync_requires_new (fun _ => .error e) fresh c d hd]
    simp [countCommitOf, countRollbackOf, countCloseOf]
  · intro prop hprop
    rw [handle_sync_reuse (fun _ => u) fresh s c kid d prop hprop hall]
    simp [noTerminationEvents, countPushOf, countPopOf]

/-- Witness for C2 at concrete inputs: a successful CREATE_NEW commits and
closes once; a failing CREATE_NEW rolls back; a reusing MANDATORY frame
issues no commit or rollback. -/
theorem c2_scope_lifecycle_witness :
    countCommitOf 9
      (handle_sync (fun _ => .ok ()) 9 .REQUIRED ⟨[], 0⟩).events = 1 ∧
    countRollbackOf 9
      (handle_sync (fun _ => .error ⟨.userExc 1, "x", none⟩) 9 .REQUIRED
        ⟨[], 0⟩).events = 1 ∧
    noTerminationEvents
      (handle_sync (fun _ => .ok ()) 9 .MANDATORY
        ⟨[] ++ [("k", 5)], 0⟩).events = true :=
  ⟨((c2_scope_lifecycle (.ok ()) 5 9 0 "k" [] (by simp) (by decide)).1
      rfl).1,
    ((c2_scope_lifecycle (.error ⟨.userExc 1, "x", none⟩) 5 9 0 "k" []
      (by simp) (by decide)).2.1 ⟨_, rfl⟩).2.1,
    ((c2_scope_lifecycle (.ok ()) 5 9 0 "k" [] (by simp) (by decide)).2.2.2.2
      .MANDATORY (Or.inr (Or.inr rfl))).1⟩

/-- C9: an exception raised by the user function inside a newly created sync
session is rolled back by `Database.get_db` and replaced by a `DatabaseError`
carrying the original class as cause; consequently the retry loop classifies
`DatabaseError` — so a `rollback_for` that does not match `DatabaseError`
(in particular one naming only the user's own exception class) never retries
such a failure. -/
theorem c9_new_session_failures_become_database_error (e : Exc)
    (fresh c : Nat) (b : ℚ) (n : Nat) (hu : e.cls ≠ .databaseError) :
    (handle_sync (fun _ => .error e) fresh .REQUIRED ⟨[], c⟩).result =
      .error ⟨.databaseError, "Database error occurred", some e.cls⟩ ∧
    countRollbackOf fresh
      (handle_sync (fun _ => .error e) fresh .REQUIRED ⟨[], c⟩).events = 1 ∧
    catchesAny [ExcSpec.cls e.cls] .databaseError = false ∧
    (∀ rf : List ExcSpec, catchesAny rf .databaseError = false →
      retry_sync (fun _ =>
          (handle_sync (fun _ => .error e) fresh .REQUIRED ⟨[], c⟩).result)
        rf b n =
        (.error ⟨.databaseError, "Database error occurred", some e.cls⟩,
          1, [])) := by
  have h := handle_sync_required_create (fun _ => .error e) fresh c
  have hres : (handle_sync (fun _ => .error e) fresh .REQUIRED
      ⟨[], c⟩).result =
      .error ⟨.databaseError, "Database error occurred", some e.cls⟩ := by
    rw [h]
  have hcat : catchesAny [ExcSpec.cls e.cls] .databaseError = false := by
    simp [catchesAny, ExcSpec.catches, hu]
  refine ⟨hres, ?_, hcat, ?_⟩
  · rw [h]
    simp [countRollbackOf]
  · intro rf hrf
    exact retry_sync_unmatched _ rf b n _ hres hrf

/-- Witness for C9 at concrete inputs: a user-class failure inside a new
session surfaces as `DatabaseError` and is not retried by a `rollback_for`
naming only that user class. -/
theorem c9_new_session_failures_become_database_error_witness :
    (handle_sync (fun _ => .error ⟨.userExc 0, "u", none⟩) 9 .REQUIRED
      ⟨[], 0⟩).result =
      .error ⟨.databaseError, "Database error occurred",
        some (.userExc 0)⟩ ∧
    retry_sync (fun _ =>
        (handle_sync (fun _ => .error ⟨.userExc 0, "u", none⟩) 9 .REQUIRED
          ⟨[], 0⟩).result)
      [ExcSpec.cls (.userExc 0)] 1 2 =
      (.error ⟨.databaseError, "Database error occurred",
        some (.userExc 0)⟩, 1, []) :=
  ⟨(c9_new_session_failures_become_database_error ⟨.userExc 0, "u", none⟩
      9 0 1 2 (by decide)).1,
    (c9_new_session_failures_become_database_error ⟨.userExc 0, "u", none⟩
      9 0 1 2 (by decide)).2.2.2 [ExcSpec.cls (.userExc 0)] (by decide)⟩

/-- C10: both wrappers resolve the database by a registry lookup with the
`db` argument as key; a `Database` instance compares by identity with the
registered keys, so passing an instance fails with
`KeyError("not registered")` unless that very object was registered as a
key — the instance is never used directly. -/
theorem c10_database_argument_always_looked_up (dbs : List (DbKey × Nat))
    (o dbv : Nat) (hnames : ∀ p ∈ dbs, ∀ oid : Nat, p.1 ≠ DbKey.ref oid) :
    transactional_resolve dbs (DbKey.ref o) =
      .error ⟨.keyError, "not registered", none⟩ ∧
    transactional_resolve ((DbKey.ref o, dbv) :: dbs) (DbKey.ref o) =
      .ok dbv := by
  constructor
  · unfold transactional_resolve get_database
    have hnone : dbs.find? (fun p => p.1 == DbKey.ref o) = none := by
      rw [List.find?_eq_none]
      intro p hp
      simpa using hnames p hp o
    rw [hnone]
  · unfold transactional_resolve get_database
    rw [List.find?_cons]
    simp

/-- Witness for C10: a registry holding only the name `"default"` rejects a
`Database` instance passed as the `db` argument; registering the instance
itself as a key makes the lookup succeed. -/
theorem c10_database_argument_always_looked_up_witness :
    transactional_resolve [(DbKey.name "default", 3)] (DbKey.ref 7) =
      .error ⟨.keyError, "not registered", none⟩ ∧
    transactional_resolve [(DbKey.ref 7, 9)] (DbKey.ref 7) = .ok 9 :=
  ⟨(c10_database_argument_always_looked_up [(DbKey.name "default", 3)] 7 0
      (by intro p hp oid
          rcases List.mem_singleton.mp hp with rfl
          simp)).1,
    (c10_database_argument_always_looked_up [] 7 9 (by simp)).2⟩

/-- The propagation-violation `ValueError` of
`TransactionError.MANDATORY_REQUIRED`. -/
def mandatoryViolation : Exc :=
  ⟨.valueError, "No existing transaction (MANDATORY propagation)", none⟩

/-- MANDATORY on an empty stack rejects before anything happens. -/
theorem handle_sync_mandatory_empty (f : Option Nat → Except Exc Unit)
    (fresh : Nat) :
    handle_sync f fresh .MANDATORY SessionStack.emptyStack =
      ⟨.error mandatoryViolation, SessionStack.emptyStack, []⟩ := rfl

/-- Under the default `rollback_for = (Exception,)` the MANDATORY rejection
is caught and retried until the budget is exhausted, then re-raised
unchanged; the user function never runs. -/
theorem transactional_sync_mandatory_empty
    (userAt : Nat → Option Nat → Except Exc Unit) (freshAt : Nat → Nat)
    (b : ℚ) :
    ∀ (rc attempt : Nat),
      transactional_sync .MANDATORY userAt freshAt [ExcSpec.anyExc] b rc
        attempt SessionStack.emptyStack =
        ⟨.error mandatoryViolation, SessionStack.emptyStack, [],
          List.replicate rc b, rc + 1⟩ := by
  intro rc
  induction rc with
  | zero =>
      intro attempt
      rfl
  | succ r ih =>
      intro attempt
      simp only [transactional_sync, handle_sync_mandatory_empty,
        ih (attempt + 1)]
      simp [catchesAny, ExcSpec.catches, List.replicate_succ]

/-- C3 amended: a MANDATORY REJECT raises the propagation `ValueError` before
the user function runs (invocation count 0) and is re-raised unchanged at
exhaustion — but it *is* retried by the retry loop whenever `rollback_for`
matches it, which the default `(Exception,)` does: the execute closure runs
`retry_count + 1` times. -/
theorem c3_amended_reject_retried_when_classified (rc : Nat) (b : ℚ)
    (userAt : Nat → Option Nat → Except Exc Unit) (freshAt : Nat → Nat) :
    (transactional_sync .MANDATORY userAt freshAt [ExcSpec.anyExc] b rc 0
      SessionStack.emptyStack).attempts = rc + 1 ∧
    countUserCalls (transactional_sync .MANDATORY userAt freshAt
      [ExcSpec.anyExc] b rc 0 SessionStack.emptyStack).events = 0 ∧
    (transactional_sync .MANDATORY userAt freshAt [ExcSpec.anyExc] b rc 0
      SessionStack.emptyStack).result = .error mandatoryViolation := by
  rw [transactional_sync_mandatory_empty userAt freshAt b rc 0]
  exact ⟨rfl, rfl, rfl⟩

/-- C7 amended: every call chain whose context variable is empty receives the
process-wide singleton: a second chain initialized after a first one obtains
the very same stack object, which is also the memoized `_instance`. -/
theorem c7_amended_all_chains_share_the_singleton (w : PyWorld) :
    (handlerInitStack none ((handlerInitStack none w).2.2)).1 =
      (handlerInitStack none w).1 ∧
    ((handlerInitStack none w).2.2).singletonInst =
      some (handlerInitStack none w).1 := by
  cases h : w.singletonInst <;>
    simp [handlerInitStack, sessionStackNew, h]

/-- Decimal value of a digit character. -/
def digitVal (ch : Char) : Nat :=
  ch.toNat - 48

/-- Value of a most-significant-first digit string on top of an
accumulator. -/
def digitsVal (a : Nat) : List Char → Nat
  | [] => a
  | ch :: rest => digitsVal (a * 10 + digitVal ch) rest

/-- The decimal digit characters decode back to their digits. -/
theorem digitVal_digitChar (d : Nat) (h : d < 10) :
    digitVal (Nat.digitChar d) = d := by
  interval_cases d <;> rfl

/-- Decoding correctness of the core decimal printer: with enough fuel, the
emitted digits of `n` followed by `ds` decode, from accumulator 0, to the
decoding of `ds` from accumulator `n`. -/
theorem toDigitsCore_digitsVal :
    ∀ (fuel n : Nat) (ds : List Char), n < fuel →
      digitsVal 0 (Nat.toDigitsCore 10 fuel n ds) = digitsVal n ds := by
  intro fuel
  induction fuel with
  | zero =>
      intro n ds h
      exact absurd h (Nat.not_lt_zero n)
  | succ f ih =>
      intro n ds h
      unfold Nat.toDigitsCore
      by_cases h10 : n / 10 = 0
      · rw [if_pos h10]
        have hn : n % 10 = n :=
          Nat.mod_eq_of_lt ((Nat.div_eq_zero_iff (by norm_num)).mp h10)
        show digitsVal (0 * 10 + digitVal (Nat.digitChar (n % 10))) ds =
          digitsVal n ds
        rw [digitVal_digitChar _ (Nat.mod_lt _ (by norm_num)), hn,
          Nat.zero_mul, Nat.zero_add]
      · rw [if_neg h10]
        have hn0 : 0 < n := by
          rcases Nat.eq_zero_or_pos n with h0 | h0
          · subst h0; simp at h10
          · exact h0
        have hfuel : n / 10 < f := by
          have h1 : n / 10 < n := Nat.div_lt_self hn0 (by norm_num)
          omega
        rw [ih (n / 10) (Nat.digitChar (n % 10) :: ds) hfuel]
        show digitsVal (n / 10 * 10 + digitVal (Nat.digitChar (n % 10))) ds =
          digitsVal n ds
        rw [digitVal_digitChar _ (Nat.mod_lt _ (by norm_num))]
        have : n / 10 * 10 + n % 10 = n := by omega
        rw [this]

/-- The decimal printer round-trips. -/
theorem digitsVal_toDigits (n : Nat) :
    digitsVal 0 (Nat.toDigits 10 n) = n := by
  have h := toDigitsCore_digitsVal (n + 1) n [] (Nat.lt_succ_self n)
  unfold Nat.toDigits
  rw [h]
  rfl

/-- `Nat.repr` is injective. -/
theorem natRepr_injective : Function.Injective Nat.repr := by
  intro m n h
  have hdata : Nat.toDigits 10 m = Nat.toDigits 10 n := by
    have hd := congrArg String.data h
    simpa [Nat.repr, List.asString] using hd
  have hm := digitsVal_toDigits m
  rw [hdata, digitsVal_toDigits n] at hm
  exact hm.symm

/-- Session ids are injective in the counter value. -/
theorem mkSessionId_injective : Function.Injective mkSessionId := by
  intro m n h
  unfold mkSessionId at h
  have hd := congrArg String.data h
  rw [String.data_append, String.data_append] at hd
  have h2 : (Nat.repr m).data = (Nat.repr n).data :=
    List.append_cancel_left hd
  exact natRepr_injective (String.ext h2)

/-- One clear-free operation on a `SessionStack`. -/
inductive StackOp
  | pushOp (s : Nat)
  | popOp (id : String)
  | currentOp

/-- Run a sequence of clear-free operations, collecting the ids handed out by
the pushes. -/
def runStackOps : SessionStack → List StackOp → SessionStack × List String
  | st, [] => (st, [])
  | st, .pushOp s :: rest =>
      let p := st.push s
      let r := runStackOps p.2 rest
      (r.1, p.1 :: r.2)
  | st, .popOp k :: rest => runStackOps (st.pop k).2 rest
  | st, .currentOp :: rest => runStackOps st rest

/-- Number of pushes in an operation sequence. -/
def numPushes : List StackOp → Nat
  | [] => 0
  | .pushOp _ :: r => numPushes r + 1
  | .popOp _ :: r => numPushes r
  | .currentOp :: r => numPushes r

/-- The ids handed out by the pushes of a clear-free sequence are exactly the
session ids of the consecutive counter values starting at the initial
counter. -/
theorem runStackOps_ids_eq (ops : List StackOp) :
    ∀ st : SessionStack,
      (runStackOps st ops).2 =
        (List.range' st.counter (numPushes ops)).map mkSessionId := by
  induction ops with
  | nil => intro st; simp [runStackOps, numPushes]
  | cons op rest ih =>
      intro st
      cases op with
      | pushOp s =>
          show ((runStackOps (st.push s).2 rest).1,
              (st.push s).1 :: (runStackOps (st.push s).2 rest).2).2 =
            (List.range' st.counter (numPushes rest + 1)).map mkSessionId
          rw [List.range'_succ]
          simp only [List.map_cons]
          have hc : (st.push s).2.counter = st.counter + 1 := rfl
          have hid : (st.push s).1 = mkSessionId st.counter := rfl
          rw [ih (st.push s).2, hc, hid]
      | popOp k =>
          show (runStackOps (st.pop k).2 rest).2 =
            (List.range' st.counter (numPushes rest)).map mkSessionId
          have hc : (st.pop k).2.counter = st.counter := rfl
          rw [ih (st.pop k).2, hc]
      | currentOp =>
          show (runStackOps st rest).2 =
            (List.range' st.counter (numPushes rest)).map mkSessionId
          exact ih st

/-- C8 amended: within any sequence of push / pop / current operations with
no intervening `clear`, the ids handed out by the pushes are pairwise
distinct — but `clear()` resets the counter, so ids *are* reused across a
`clear` (see the counterexample). -/
theorem c8_amended_ids_unique_between_clears (st : SessionStack)
    (ops : List StackOp) :
    ((runStackOps st ops).2).Nodup := by
  rw [runStackOps_ids_eq ops st]
  exact (List.nodup_range' st.counter (numPushes ops)).map
    mkSessionId_injective
